import Mathlib

/-!
# Verification of the vx-mcp resilient request pipeline

Shallow embedding of `src/client.ts` (package `@vesselnyc/mcp-server`).
JavaScript strings are Lean `String`s (reasoned about through `.data`),
JavaScript numbers that may be `NaN` are the two-constructor type `JSNum`
over `ℚ`, and the HTTP transport is an explicit parameter: a function from
the attempt index to the outcome of that attempt (an HTTP response, a
network fault, or a timeout abort).  The retry loop of `VXClient.request`
becomes a fuel-indexed recursion whose fuel is the number of loop
iterations still permitted; the fuel-zero case is exactly the loop's
defensive fall-through (`throw lastError || new VXError('Unknown error')`).

Every operation returns a `ReqTrace`: the final result together with the
number of transport invocations and the list of back-off delays slept, so
that "the transport was never invoked" and "the waits follow
`baseDelay * 2^i`" are plain equations.
-/

namespace VxMcp

/-- Error taxonomy of `types.ts` / spec §7 (the codes are all visible in
`client.ts` where `VXError` values are constructed). -/
inductive VXErrorCode where
  | VALIDATION_ERROR
  | UNAUTHORIZED
  | NOT_FOUND
  | RATE_LIMITED
  | SERVER_ERROR
  | TIMEOUT
  | NETWORK_ERROR
  | UNKNOWN
deriving DecidableEq, Repr

/-- Memory-kind tag, spec §3. -/
inductive MemoryType where
  | SEMANTIC
  | EPISODIC
  | PROCEDURAL
deriving DecidableEq, Repr

/-- A JavaScript number as used for `importance`, `limit`, `offset`:
either an (exactly representable) rational value or `NaN`.  IEEE
comparison semantics: every comparison involving `NaN` is false. -/
inductive JSNum where
  | num (q : ℚ)
  | nan
deriving DecidableEq, Repr

/-- JavaScript `<` on numbers: false whenever either side is `NaN`. -/
def jsNumLt : JSNum → JSNum → Bool
  | .num a, .num b => decide (a < b)
  | _, _ => false

/-- JavaScript falsiness of a number: `0` (and `-0`, identified in `ℚ`)
and `NaN` are falsy. -/
def jsFalsy : JSNum → Bool
  | .num q => decide (q = 0)
  | .nan => true

/-- Spec-side helper (not from the source): membership of a JS number in
the closed interval `[0, 1]` under IEEE semantics; `NaN` is not a member. -/
def specInUnitInterval (x : JSNum) : Bool :=
  match x with
  | .num q => decide (0 ≤ q) && decide (q ≤ 1)
  | .nan => false

/-- Modelled from the spec: `ClassifiedError` (`VXError` in `types.ts`,
which is not under `src/`; its constructor-argument order
`(message, code, status?, retryable?)` is visible at every `new VXError`
call in `client.ts`, and spec §3 lists exactly these fields). -/
structure VXError where
  message : String
  code : VXErrorCode
  status : Option Nat
  retryable : Bool
deriving DecidableEq, Repr

/-- Modelled from the spec: the domain record of spec §3 (`Memory` of
`types.ts`, not under `src/`).  Field values are never inspected by the
pipeline, which only transports them. -/
structure Memory where
  id : String
  content : String
  context : Option String
  memoryType : MemoryType
  importance : Option JSNum
  source : Option String
  createdAt : String
  updatedAt : Option String
deriving DecidableEq, Repr

/-- Modelled from the spec: query response (spec §6, `/v1/query`). -/
structure QueryResult where
  memories : List Memory
  total : Nat
deriving DecidableEq, Repr

/-- Modelled from the spec: listing response (spec §6, `GET /v1/memories`). -/
structure ListResult where
  memories : List Memory
  total : Nat
  limit : Nat
  offset : Nat
deriving DecidableEq, Repr

/-- Modelled from the spec: body of the `/v1/health` response. -/
structure HealthBody where
  status : String
deriving DecidableEq, Repr

/-- `VXClientConfig` after validation (`validateConfig` fills every field). -/
structure VXClientConfig where
  apiUrl : String
  apiKey : String
  maxRetries : Nat
  retryDelay : Nat
  timeout : Nat
  source : String
  clientName : String
deriving DecidableEq, Repr

/-- `Partial<VXClientConfig>` as received by the `VXClient` constructor. -/
structure PartialVXClientConfig where
  apiUrl : Option String
  apiKey : Option String
  maxRetries : Option Nat
  retryDelay : Option Nat
  timeout : Option Nat
  source : Option String
  clientName : Option String
deriving DecidableEq, Repr

/-- The `X-Client` version tag, `const VERSION = '0.3.0'`. -/
def VERSION : String := "0.3.0"

/-- ECMAScript whitespace recognised by `String.prototype.trim`
(WhiteSpace ∪ LineTerminator; the rarer Space_Separator code points are
omitted — the subset only narrows the whitespace-only hypothesis). -/
def isJsWhitespace (c : Char) : Bool :=
  c = ' ' || c = '\t' || c = '\n' || c = '\r' ||
  c.toNat = 0x0B || c.toNat = 0x0C || c.toNat = 0x00A0 ||
  c.toNat = 0xFEFF || c.toNat = 0x2028 || c.toNat = 0x2029

/-- `String.prototype.trim`: drop leading and trailing whitespace. -/
def jsTrim (s : String) : String :=
  ⟨((s.data.dropWhile isJsWhitespace).reverse.dropWhile isJsWhitespace).reverse⟩

/-- `config.apiUrl.replace(/\/$/, '')` in `validateConfig` (line 67):
removes a single trailing `'/'` when present (`$` anchors the pattern to
the end of the string, so at most one character is removed). -/
def stripTrailingSlash (s : String) : String :=
  if s.data.getLast? = some '/' then ⟨s.data.dropLast⟩ else s

/-- Models the WHATWG `new URL(...)` syntactic check of `validateConfig`,
restricted to the absolute HTTP(S) URLs the claims quantify over: an
`http://` or `https://` scheme followed by a non-empty remainder. -/
def isValidUrl (s : String) : Bool :=
  ("http://".data.isPrefixOf s.data && decide (7 < s.data.length)) ||
  ("https://".data.isPrefixOf s.data && decide (8 < s.data.length))

/-- `validateConfig` (`client.ts` lines 41–75).  `detectedSource` stands
for the environment-dependent `detectSource()` result used when no source
is configured.  A JS `!config.apiUrl` guard is falsy for both `undefined`
and `''`, hence the two-step checks. -/
def validateConfig (detectedSource : String) (config : PartialVXClientConfig) :
    Except VXError VXClientConfig :=
  match config.apiUrl with
  | none => .error ⟨"VX_API_URL is required. Set it via environment variable or config.",
      .VALIDATION_ERROR, none, false⟩
  | some u =>
    if u = "" then
      .error ⟨"VX_API_URL is required. Set it via environment variable or config.",
        .VALIDATION_ERROR, none, false⟩
    else
      match config.apiKey with
      | none => .error ⟨"VX_API_KEY is required. Get one at https://vessel.nyc/settings/api-keys",
          .VALIDATION_ERROR, none, false⟩
      | some k =>
        if k = "" then
          .error ⟨"VX_API_KEY is required. Get one at https://vessel.nyc/settings/api-keys",
            .VALIDATION_ERROR, none, false⟩
        else if isValidUrl u = false then
          .error ⟨"Invalid VX_API_URL: " ++ u ++ ". Must be a valid URL.",
            .VALIDATION_ERROR, none, false⟩
        else
          .ok ⟨stripTrailingSlash u, k,
               config.maxRetries.getD 3,
               config.retryDelay.getD 1000,
               config.timeout.getD 30000,
               config.source.getD detectedSource,
               config.clientName.getD "mcp-server"⟩

/-- `const url = this.config.apiUrl + endpoint` (`client.ts` line 133). -/
def requestUrl (base endpoint : String) : String :=
  base ++ endpoint

/-- `mapStatusToErrorCode` (`client.ts` lines 80–99); the `switch` with
fall-through cases is rendered as an if-chain. -/
def mapStatusToErrorCode (status : Nat) : VXErrorCode :=
  if status = 401 ∨ status = 403 then .UNAUTHORIZED
  else if status = 404 then .NOT_FOUND
  else if status = 400 ∨ status = 422 then .VALIDATION_ERROR
  else if status = 429 then .RATE_LIMITED
  else if status = 500 ∨ status = 502 ∨ status = 503 ∨ status = 504 then .SERVER_ERROR
  else .UNKNOWN

/-- `isRetryable` (`client.ts` lines 105–107):
`status >= 500 || status === 429 || status === 0`. -/
def isRetryable (status : Nat) : Bool :=
  decide (500 ≤ status) || decide (status = 429) || decide (status = 0)

/-- The `VXError` built for a non-success HTTP status
(`client.ts` lines 158–168). -/
def classifyHttpError (status : Nat) (errorText : String) : VXError :=
  ⟨"VX API error: " ++ toString status ++ " - " ++ errorText,
   mapStatusToErrorCode status, some status, isRetryable status⟩

/-- What one attempt's `fetch` produced, as seen by the pipeline:
an HTTP response (its status, its body text, and the result of
`JSON.parse` on that text — `none` when the parse throws), a rejected
promise (connection refused, DNS, ...), or an abort by the per-attempt
timeout controller. -/
inductive AttemptOutcome (T : Type) where
  | http (status : Nat) (text : String) (parsed : Option T)
  | networkFault (message : String)
  | timeout
deriving DecidableEq

/-- Successful pipeline result: `{} as T` for an empty body
(`client.ts` line 182) or the parsed value. -/
inductive ReqSuccess (T : Type) where
  | emptyObj
  | parsed (v : T)
deriving DecidableEq

/-- One attempt's classification before the retry decision. -/
inductive StepOutcome (T : Type) where
  | succeed (s : ReqSuccess T)
  | fail (e : VXError)
deriving DecidableEq

/-- The generic-catch error for a `JSON.parse` failure on a success
response (`client.ts` lines 184–202): the thrown `SyntaxError` is not a
`VXError` and not an `AbortError`, so it is classified `NETWORK_ERROR`
with `retryable = true`.  (The platform `SyntaxError` message text is not
modelled.) -/
def jsonParseFailureError : VXError :=
  ⟨"Network error: JSON parse failure", .NETWORK_ERROR, none, true⟩

/-- Classification of one attempt (`client.ts` lines 144–202):
* success status (`response.ok`, i.e. 200–299) with empty text → `{}`;
* success status, non-empty text, parse succeeds → the value;
* success status, non-empty text, parse throws → generic catch,
  `NETWORK_ERROR`, retryable;
* non-success status → `classifyHttpError`;
* rejected fetch → `NETWORK_ERROR`, retryable;
* abort by the timeout controller → `TIMEOUT`, retryable. -/
def classifyOutcome (cfg : VXClientConfig) (o : AttemptOutcome T) : StepOutcome T :=
  match o with
  | .http status text parsed =>
    if 200 ≤ status ∧ status ≤ 299 then
      if text = "" then .succeed .emptyObj
      else
        match parsed with
        | some v => .succeed (.parsed v)
        | none => .fail jsonParseFailureError
    else .fail (classifyHttpError status text)
  | .networkFault msg => .fail ⟨"Network error: " ++ msg, .NETWORK_ERROR, none, true⟩
  | .timeout => .fail ⟨"Request timed out after " ++ toString cfg.timeout ++ "ms",
      .TIMEOUT, none, true⟩

/-- Observable trace of one `request` call: the final result, the number
of transport invocations, and the back-off delays slept between attempts,
in order. -/
structure ReqTrace (T : Type) where
  result : Except VXError (ReqSuccess T)
  attempts : Nat
  delays : List Nat

/-- An operation rejected by the validation layer: no transport
invocation, no delay. -/
def errTrace (e : VXError) : ReqTrace T :=
  ⟨.error e, 0, []⟩

/-- The retry loop of `VXClient.request` (`client.ts` lines 136–215).
`fuel` is the number of loop iterations still permitted
(`maxRetries + 1 - attempt` throughout a run); the fuel-zero case is the
loop's fall-through `throw lastError || new VXError('Unknown error')`
(line 214).  On a failure the loop raises when the error is not retryable
or the attempt is the last one (line 170; the generic catch at line 204
tests only `attempt === maxRetries`, equivalent because its errors always
have `retryable = true`), and otherwise sleeps
`retryDelay * 2 ^ attempt` and continues (lines 175–176, 209–210). -/
def requestAux (cfg : VXClientConfig) (t : Nat → AttemptOutcome T) :
    Nat → Nat → Option VXError → ReqTrace T
  | 0, _, lastError =>
    ⟨.error (lastError.getD ⟨"Unknown error", .UNKNOWN, none, false⟩), 0, []⟩
  | fuel + 1, attempt, _ =>
    match classifyOutcome cfg (t attempt) with
    | .succeed s => ⟨.ok s, 1, []⟩
    | .fail e =>
      if e.retryable = false ∨ attempt = cfg.maxRetries then ⟨.error e, 1, []⟩
      else
        let rest := requestAux cfg t fuel (attempt + 1) (some e)
        ⟨rest.result, rest.attempts + 1, cfg.retryDelay * 2 ^ attempt :: rest.delays⟩

/-- `VXClient.request`: run the loop from attempt 0 with full fuel. -/
def request (cfg : VXClientConfig) (t : Nat → AttemptOutcome T) : ReqTrace T :=
  requestAux cfg t (cfg.maxRetries + 1) 0 none

-- ===========================================================================
-- Memory operations (`client.ts` lines 221–361)
-- ===========================================================================

/-- Caller input of `store` (`StoreMemoryInput`). -/
structure StoreMemoryInput where
  content : String
  context : Option String
  memoryType : Option MemoryType
  importance : Option JSNum
deriving DecidableEq

/-- Caller input of `update` (`UpdateMemoryInput`). -/
structure UpdateMemoryInput where
  id : String
  content : Option String
  context : Option String
  memoryType : Option MemoryType
  importance : Option JSNum
deriving DecidableEq

/-- Caller input of `query` (`QueryMemoriesInput`). -/
structure QueryMemoriesInput where
  query : String
  limit : Option JSNum
  context : Option String
  memoryType : Option MemoryType
deriving DecidableEq

/-- Caller input of `list` (`ListMemoriesInput`). -/
structure ListMemoriesInput where
  limit : Option JSNum
  offset : Option JSNum
  context : Option String
  memoryType : Option MemoryType
deriving DecidableEq

/-- The `metadata` object serialized into the store body
(`client.ts` lines 247–251). -/
structure StoreMetadata where
  source : String
  client : String
  version : String
deriving DecidableEq

/-- Serialized body of `POST /v1/memories` (`client.ts` lines 241–252). -/
structure StorePayload where
  content : String
  context : Option String
  memoryType : MemoryType
  importance : JSNum
  source : String
  metadata : StoreMetadata
deriving DecidableEq

/-- Serialized body of `PATCH /v1/memories/{id}`: the `updates` record
(`client.ts` lines 264–273), a field present exactly when it was present
on the input. -/
structure UpdatePayload where
  content : Option String
  context : Option String
  memoryType : Option MemoryType
  importance : Option JSNum
deriving DecidableEq

/-- Serialized body of `POST /v1/query` (`client.ts` lines 295–300). -/
structure QueryPayload where
  query : String
  limit : JSNum
  context : Option String
  memoryType : Option MemoryType
deriving DecidableEq

/-- The shared importance-range check `importance < 0 || importance > 1`
of `store` (line 234, after a `typeof` check that a `JSNum` passes by
construction) and `update` (line 269).  Under IEEE semantics both
comparisons are false for `NaN`. -/
def importanceOutOfRange : Option JSNum → Bool
  | none => false
  | some imp => jsNumLt imp (.num 0) || jsNumLt (.num 1) imp

/-- Body built and posted by `store` (`client.ts` lines 239–253):
`memoryType: input.memoryType || 'SEMANTIC'`,
`importance: input.importance ?? 0.5` (so a present `NaN` is kept). -/
def storePayload (cfg : VXClientConfig) (input : StoreMemoryInput) : StorePayload :=
  ⟨input.content, input.context,
   input.memoryType.getD .SEMANTIC,
   input.importance.getD (.num (1 / 2)),
   cfg.source,
   ⟨cfg.source, cfg.clientName, VERSION⟩⟩

/-- `VXClient.store` (`client.ts` lines 224–254).  The transport receives
the endpoint and the serialized body; `content` is a Lean `String`, so
the source's `typeof input.content !== 'string'` guard holds by typing. -/
def VXClient.store (cfg : VXClientConfig)
    (t : String → StorePayload → Nat → AttemptOutcome Memory)
    (input : StoreMemoryInput) : ReqTrace Memory :=
  if jsTrim input.content = "" then
    errTrace ⟨"content cannot be empty or whitespace", .VALIDATION_ERROR, none, false⟩
  else if importanceOutOfRange input.importance then
    errTrace ⟨"importance must be a number between 0 and 1", .VALIDATION_ERROR, none, false⟩
  else
    request cfg (t "/v1/memories" (storePayload cfg input))

/-- The `updates` record of `update` and its emptiness test
(`client.ts` lines 264–277). -/
def updatePayload (input : UpdateMemoryInput) : UpdatePayload :=
  ⟨input.content, input.context, input.memoryType, input.importance⟩

/-- `Object.keys(updates).length === 0` (`client.ts` line 275). -/
def updateHasNoField (p : UpdatePayload) : Bool :=
  p.content.isNone && p.context.isNone && p.memoryType.isNone && p.importance.isNone

/-- `VXClient.update` (`client.ts` lines 259–283).  The importance range
check happens while `updates` is built, before the emptiness check; the
payload is unaffected by check order. -/
def VXClient.update (cfg : VXClientConfig)
    (t : String → UpdatePayload → Nat → AttemptOutcome Memory)
    (input : UpdateMemoryInput) : ReqTrace Memory :=
  if input.id = "" then
    errTrace ⟨"id is required and must be a string", .VALIDATION_ERROR, none, false⟩
  else if importanceOutOfRange input.importance then
    errTrace ⟨"importance must be between 0 and 1", .VALIDATION_ERROR, none, false⟩
  else if updateHasNoField (updatePayload input) then
    errTrace ⟨"At least one field to update is required", .VALIDATION_ERROR, none, false⟩
  else
    request cfg (t ("/v1/memories/" ++ input.id) (updatePayload input))

/-- `input.limit || 10` (`client.ts` line 297): the default replaces any
falsy value (`undefined`, `0`, `NaN`), not only an absent one. -/
def jsNumOrDefault (v : Option JSNum) (d : JSNum) : JSNum :=
  match v with
  | none => d
  | some x => if jsFalsy x then d else x

/-- Body built and posted by `query` (`client.ts` lines 295–300). -/
def queryBody (input : QueryMemoriesInput) : QueryPayload :=
  ⟨input.query, jsNumOrDefault input.limit (.num 10), input.context, input.memoryType⟩

/-- `VXClient.query` (`client.ts` lines 288–302); `!input.query` rejects
the empty string. -/
def VXClient.query (cfg : VXClientConfig)
    (t : String → QueryPayload → Nat → AttemptOutcome QueryResult)
    (input : QueryMemoriesInput) : ReqTrace QueryResult :=
  if input.query = "" then
    errTrace ⟨"query is required and must be a string", .VALIDATION_ERROR, none, false⟩
  else
    request cfg (t "/v1/query" (queryBody input))

/-- Rendering of a JS number into a query-string value
(`input.limit.toString()`).  Simplified rendering of
`Number.prototype.toString`; no claim inspects the rendered text. -/
def jsNumToString : JSNum → String
  | .nan => "NaN"
  | .num q => if q.den = 1 then toString q.num else toString q.num ++ "/" ++ toString q.den

/-- `MemoryType` as the string set into `URLSearchParams`. -/
def MemoryType.str : MemoryType → String
  | .SEMANTIC => "SEMANTIC"
  | .EPISODIC => "EPISODIC"
  | .PROCEDURAL => "PROCEDURAL"

/-- The `URLSearchParams` built by `list` (`client.ts` lines 308–312), as
an ordered key/value list.  Every `if (input.x)` guard is a JS truthiness
test, so `0` and `NaN` limits/offsets and an empty-string context are
omitted exactly like absent ones.  (Percent-encoding of values is not
modelled; no claim inspects an encoded value.) -/
def listParams (input : ListMemoriesInput) : List (String × String) :=
  (match input.limit with
   | some l => if jsFalsy l then [] else [("limit", jsNumToString l)]
   | none => []) ++
  (match input.offset with
   | some o => if jsFalsy o then [] else [("offset", jsNumToString o)]
   | none => []) ++
  (match input.context with
   | some c => if c = "" then [] else [("context", c)]
   | none => []) ++
  (match input.memoryType with
   | some m => [("memoryType", m.str)]
   | none => [])

/-- `params.toString()` for the model above. -/
def paramsToString (l : List (String × String)) : String :=
  String.intercalate "&" (l.map fun p => p.1 ++ "=" ++ p.2)

/-- The endpoint `list` hands to the pipeline (`client.ts` lines 314–315). -/
def listEndpoint (input : ListMemoriesInput) : String :=
  let queryString := paramsToString (listParams input)
  if queryString = "" then "/v1/memories" else "/v1/memories?" ++ queryString

/-- `VXClient.list` (`client.ts` lines 307–318): no validation, a GET
with no body. -/
def VXClient.list (cfg : VXClientConfig)
    (t : String → Nat → AttemptOutcome ListResult)
    (input : ListMemoriesInput) : ReqTrace ListResult :=
  request cfg (t (listEndpoint input))

/-- Result of `healthCheck`. -/
structure HealthCheckResult where
  ok : Bool
  latency : Nat
deriving DecidableEq, Repr

/-- `VXClient.healthCheck` (`client.ts` lines 353–361): one pipeline call
on `/v1/health`; any raised `VXError` is swallowed into `ok = false`.
Wall-clock time is outside the model, so the measured `Date.now()`
difference is the parameter `elapsed`. -/
def VXClient.healthCheck (cfg : VXClientConfig)
    (t : String → Nat → AttemptOutcome HealthBody)
    (elapsed : Nat) : HealthCheckResult :=
  match (request cfg (t "/v1/health")).result with
  | .ok _ => ⟨true, elapsed⟩
  | .error _ => ⟨false, elapsed⟩

/-- The exponential back-off schedule: the delays slept when `n`
consecutive retryable failures start at attempt index `attempt`. -/
def geomDelays (cfg : VXClientConfig) : Nat → Nat → List Nat
  | _, 0 => []
  | attempt, n + 1 => cfg.retryDelay * 2 ^ attempt :: geomDelays cfg (attempt + 1) n

-- ===========================================================================
-- Concrete fixtures used by witnesses and counterexamples
-- ===========================================================================

/-- A validated configuration with the default retry policy. -/
def cfgTest : VXClientConfig :=
  ⟨"https://api.test.com", "test-key", 3, 1000, 30000, "mcp", "mcp-server"⟩

/-- One retry permitted, 7 ms base delay. -/
def cfgRetryOnce : VXClientConfig :=
  ⟨"https://api.test.com", "test-key", 1, 7, 30000, "mcp", "mcp-server"⟩

/-- Two retries permitted, 3 ms base delay. -/
def cfgTwoRetries : VXClientConfig :=
  ⟨"https://api.test.com", "test-key", 2, 3, 30000, "mcp", "mcp-server"⟩

/-- No retries permitted. -/
def cfgNoRetry : VXClientConfig :=
  ⟨"https://api.test.com", "test-key", 0, 1000, 30000, "mcp", "mcp-server"⟩

/-- A concrete remote record. -/
def memFixture : Memory := ⟨"m1", "hello", none, .SEMANTIC, none, none, "t0", none⟩

/-- A transport answering every attempt with HTTP 200 and a body that is
not valid JSON. -/
def parseFailTransport : Nat → AttemptOutcome Memory :=
  fun _ => .http 200 "not json" none

/-- A transport answering every attempt with HTTP 429. -/
def always429 : Nat → AttemptOutcome Memory :=
  fun _ => .http 429 "slow down" none

/-- A transport answering HTTP 500 on attempts 0 and 1 and HTTP 200 with
a parseable body on attempt 2. -/
def failTwiceTransport : Nat → AttemptOutcome Memory :=
  fun i => if i < 2 then .http 500 "err" none else .http 200 "ok-body" (some memFixture)

/-- A transport answering every attempt with HTTP 505, a status outside
the explicit taxonomy table. -/
def always505 : Nat → AttemptOutcome Memory :=
  fun _ => .http 505 "oops" none

/-- A `list` input with every field absent. -/
def emptyListInput : ListMemoriesInput := ⟨none, none, none, none⟩

-- ===========================================================================
-- Helper lemmas
-- ===========================================================================

/-- Trimming a whitespace-only string yields the empty string. -/
theorem jsTrim_eq_empty (s : String) (h : s.data.all isJsWhitespace = true) :
    jsTrim s = "" := by
  have h' : ∀ c ∈ s.data, isJsWhitespace c := by simpa [List.all_eq_true] using h
  have h1 : s.data.dropWhile isJsWhitespace = [] := List.dropWhile_eq_nil_iff.mpr h'
  simp [jsTrim, h1]

/-- The back-off schedule in closed form. -/
theorem geomDelays_eq_map (cfg : VXClientConfig) :
    ∀ n attempt, geomDelays cfg attempt n =
      (List.range n).map fun j => cfg.retryDelay * 2 ^ (attempt + j) := by
  intro n
  induction n with
  | zero => intro attempt; simp [geomDelays]
  | succ n ih =>
    intro attempt
    rw [geomDelays, ih (attempt + 1), List.range_succ_eq_map]
    simp only [List.map_cons, List.map_map, Function.comp]
    refine congrArg₂ List.cons (by rw [Nat.add_zero]) ?_
    refine List.map_congr_left fun j hj => ?_
    have e : attempt + 1 + j = attempt + j.succ := by omega
    simp [e]

-- ===========================================================================
-- C2 — status → taxonomy mapping
-- ===========================================================================

/-- C2 counterexample: HTTP 505 is not one of the statuses listed by the
claim, which therefore requires `UNKNOWN` and `retryable = false`; the
code maps it to `UNKNOWN` but marks it retryable
(`isRetryable` is `status >= 500 || ...`), and the pipeline does retry
it: with one retry permitted the transport is invoked twice. -/
theorem claim2_counterexample :
    mapStatusToErrorCode 505 = .UNKNOWN ∧
    isRetryable 505 = true ∧
    (classifyHttpError 505 "oops").retryable = true ∧
    (request cfgRetryOnce always505).attempts = 2 :=
  ⟨rfl, rfl, rfl, rfl⟩

/-- C2 (amended): the listed statuses map exactly as the claim's table
says, and every unlisted status maps to `UNKNOWN`; but an unlisted status
is retryable exactly when it is ≥ 500 or equal to 0, rather than never.
The first two conjuncts tie the table to the error object the pipeline
raises. -/
theorem claim2_status_taxonomy (s : Nat) (text : String) :
    (classifyHttpError s text).code = mapStatusToErrorCode s ∧
    (classifyHttpError s text).retryable = isRetryable s ∧
    ((s = 401 ∨ s = 403) → mapStatusToErrorCode s = .UNAUTHORIZED ∧ isRetryable s = false) ∧
    (s = 404 → mapStatusToErrorCode s = .NOT_FOUND ∧ isRetryable s = false) ∧
    ((s = 400 ∨ s = 422) → mapStatusToErrorCode s = .VALIDATION_ERROR ∧ isRetryable s = false) ∧
    (s = 429 → mapStatusToErrorCode s = .RATE_LIMITED ∧ isRetryable s = true) ∧
    ((s = 500 ∨ s = 502 ∨ s = 503 ∨ s = 504) →
      mapStatusToErrorCode s = .SERVER_ERROR ∧ isRetryable s = true) ∧
    (s ∉ ([401, 403, 404, 400, 422, 429, 500, 502, 503, 504] : List Nat) →
      mapStatusToErrorCode s = .UNKNOWN ∧ (isRetryable s = true ↔ 500 ≤ s ∨ s = 0)) := by
  refine ⟨rfl, rfl, ?_, ?_, ?_, ?_, ?_, ?_⟩
  · rintro (rfl | rfl) <;> exact ⟨rfl, rfl⟩
  · rintro rfl; exact ⟨rfl, rfl⟩
  · rintro (rfl | rfl) <;> exact ⟨rfl, rfl⟩
  · rintro rfl; exact ⟨rfl, rfl⟩
  · rintro (rfl | rfl | rfl | rfl) <;> exact ⟨rfl, rfl⟩
  · intro h
    simp only [List.mem_cons, List.not_mem_nil, or_false, not_or] at h
    obtain ⟨h1, h2, h3, h4, h5, h6, h7, h8, h9, h10⟩ := h
    constructor
    · simp [mapStatusToErrorCode, h1, h2, h3, h4, h5, h6, h7, h8, h9, h10]
    · simp only [isRetryable, Bool.or_eq_true, decide_eq_true_eq]
      omega

/-- C2 witness: the amended theorem applied at status 505. -/
theorem claim2_witness :
    mapStatusToErrorCode 505 = .UNKNOWN ∧ (isRetryable 505 = true ↔ 500 ≤ 505 ∨ 505 = 0) :=
  (claim2_status_taxonomy 505 "x").2.2.2.2.2.2.2 (by decide)

-- ===========================================================================
-- C9 — health check never raises
-- ===========================================================================

/-- C9 (confirmed): for every transport behaviour — any statuses, network
faults or timeouts on any attempts — `healthCheck` returns a
`HealthCheckResult` (it is a total function, i.e. it never raises), its
`latency` is the elapsed time, and its flag is `true` exactly when the
underlying pipeline call succeeded. -/
theorem claim9_health_never_raises (cfg : VXClientConfig)
    (t : String → Nat → AttemptOutcome HealthBody) (elapsed : Nat) :
    (VXClient.healthCheck cfg t elapsed).latency = elapsed ∧
    ((VXClient.healthCheck cfg t elapsed).ok = true ↔
      ∃ s, (request cfg (t "/v1/health")).result = .ok s) := by
  unfold VXClient.healthCheck
  rcases h : (request cfg (t "/v1/health")).result with e | s <;> simp [h]

-- ===========================================================================
-- C10 — query limit 0 is replaced by the default
-- ===========================================================================

/-- C10 (confirmed): a present `limit` of 0 is falsy, so
`input.limit || 10` sends limit 10 to `/v1/query`; more generally the
serialized limit is never 0, so a caller cannot request a limit of
zero. -/
theorem claim10_query_zero_limit (cfg : VXClientConfig)
    (t : String → QueryPayload → Nat → AttemptOutcome QueryResult)
    (input : QueryMemoriesInput) (hq : input.query ≠ "")
    (h0 : input.limit = some (.num 0)) :
    (queryBody input).limit = .num 10 ∧
    VXClient.query cfg t input = request cfg (t "/v1/query" (queryBody input)) ∧
    ∀ inp : QueryMemoriesInput, (queryBody inp).limit ≠ .num 0 := by
  refine ⟨?_, ?_, ?_⟩
  · simp [queryBody, jsNumOrDefault, h0, jsFalsy]
  · simp [VXClient.query, hq]
  · intro inp
    rcases hinp : inp.limit with _ | l
    · simp [queryBody, jsNumOrDefault, hinp]
    · rcases l with q | _
      · by_cases hz : q = 0
        · simp [queryBody, jsNumOrDefault, hinp, jsFalsy, hz]
        · simp [queryBody, jsNumOrDefault, hinp, jsFalsy, hz]
      · simp [queryBody, jsNumOrDefault, hinp, jsFalsy]

/-- C10 witness: a concrete query with `limit = 0`. -/
theorem claim10_witness :
    (queryBody ⟨"find it", some (.num 0), none, none⟩).limit = .num 10 ∧
    (∀ cfg t, VXClient.query cfg t ⟨"find it", some (.num 0), none, none⟩ =
      request cfg (t "/v1/query" (queryBody ⟨"find it", some (.num 0), none, none⟩))) ∧
    ∀ inp : QueryMemoriesInput, (queryBody inp).limit ≠ .num 0 := by
  have h := fun cfg t =>
    claim10_query_zero_limit cfg t ⟨"find it", some (.num 0), none, none⟩ (by decide) rfl
  exact ⟨(h cfgTest fun _ _ _ => .http 200 "" none).1,
         fun cfg t => (h cfg t).2.1,
         (h cfgTest fun _ _ _ => .http 200 "" none).2.2⟩

-- ===========================================================================
-- C5 — whitespace-only store content
-- ===========================================================================

/-- C5 (confirmed): for every store input whose content is empty or
whitespace-only, `store` returns the VALIDATION_ERROR trace with zero
transport invocations. -/
theorem claim5_store_whitespace (cfg : VXClientConfig)
    (t : String → StorePayload → Nat → AttemptOutcome Memory)
    (input : StoreMemoryInput) (h : input.content.data.all isJsWhitespace = true) :
    VXClient.store cfg t input =
      errTrace ⟨"content cannot be empty or whitespace", .VALIDATION_ERROR, none, false⟩ ∧
    (VXClient.store cfg t input).attempts = 0 := by
  have ht := jsTrim_eq_empty input.content h
  constructor
  · rw [VXClient.store, if_pos ht]
  · rw [VXClient.store, if_pos ht]; rfl

/-- C5 witness: content of spaces and a tab. -/
theorem claim5_witness :
    VXClient.store cfgTest (fun _ _ _ => .http 200 "" none) ⟨"  \t ", none, none, none⟩ =
      errTrace ⟨"content cannot be empty or whitespace", .VALIDATION_ERROR, none, false⟩ ∧
    (VXClient.store cfgTest (fun _ _ _ => .http 200 "" none)
      ⟨"  \t ", none, none, none⟩).attempts = 0 :=
  claim5_store_whitespace cfgTest (fun _ _ _ => .http 200 "" none)
    ⟨"  \t ", none, none, none⟩ (by decide)

-- ===========================================================================
-- C6 — importance range validation
-- ===========================================================================

/-- C6 counterexample: `NaN` is outside `[0, 1]` (no IEEE comparison puts
it inside), yet a store with `importance = NaN` passes validation —
`typeof NaN === 'number'` and both `NaN < 0` and `NaN > 1` are false —
and the transport IS invoked (one attempt, success). -/
theorem claim6_counterexample :
    specInUnitInterval .nan = false ∧
    VXClient.store cfgNoRetry (fun _ _ _ => .http 200 "json-body" (some memFixture))
      ⟨"x", none, none, some .nan⟩ = ⟨.ok (.parsed memFixture), 1, []⟩ :=
  ⟨rfl, rfl⟩

/-- C6 (amended): for every store or update input whose importance is
present and is a numeric (non-`NaN`) value outside `[0, 1]`, validation
raises VALIDATION_ERROR before any network call; a `NaN` importance is
not rejected. -/
theorem claim6_importance_range (cfg : VXClientConfig)
    (tS : String → StorePayload → Nat → AttemptOutcome Memory)
    (tU : String → UpdatePayload → Nat → AttemptOutcome Memory)
    (inS : StoreMemoryInput) (inU : UpdateMemoryInput) (q r : ℚ)
    (hS : inS.importance = some (.num q)) (hq : q < 0 ∨ 1 < q)
    (hU : inU.importance = some (.num r)) (hr : r < 0 ∨ 1 < r) :
    (∃ e, VXClient.store cfg tS inS = errTrace e ∧ e.code = .VALIDATION_ERROR) ∧
    (∃ e, VXClient.update cfg tU inU = errTrace e ∧ e.code = .VALIDATION_ERROR) ∧
    (VXClient.store cfg tS inS).attempts = 0 ∧
    (VXClient.update cfg tU inU).attempts = 0 := by
  have hioS : importanceOutOfRange inS.importance = true := by
    rw [hS]
    rcases hq with h | h <;> simp [importanceOutOfRange, jsNumLt, h]
  have hioU : importanceOutOfRange inU.importance = true := by
    rw [hU]
    rcases hr with h | h <;> simp [importanceOutOfRange, jsNumLt, h]
  have hstore : ∃ e, VXClient.store cfg tS inS = errTrace e ∧ e.code = .VALIDATION_ERROR := by
    by_cases hc : jsTrim inS.content = ""
    · exact ⟨_, by rw [VXClient.store, if_pos hc], rfl⟩
    · exact ⟨_, by rw [VXClient.store, if_neg hc, if_pos hioS], rfl⟩
  have hupdate : ∃ e, VXClient.update cfg tU inU = errTrace e ∧ e.code = .VALIDATION_ERROR := by
    by_cases hid : inU.id = ""
    · exact ⟨_, by rw [VXClient.update, if_pos hid], rfl⟩
    · exact ⟨_, by rw [VXClient.update, if_neg hid, if_pos hioU], rfl⟩
  refine ⟨hstore, hupdate, ?_, ?_⟩
  · obtain ⟨e, he, _⟩ := hstore
    rw [he]
    rfl
  · obtain ⟨e, he, _⟩ := hupdate
    rw [he]
    rfl

/-- C6 witness: store with importance 2, update with importance −1. -/
theorem claim6_witness :
    (∃ e, VXClient.store cfgTest (fun _ _ _ => .http 200 "" none)
        ⟨"x", none, none, some (.num 2)⟩ = errTrace e ∧ e.code = .VALIDATION_ERROR) ∧
    (∃ e, VXClient.update cfgTest (fun _ _ _ => .http 200 "" none)
        ⟨"id1", none, none, none, some (.num (-1))⟩ = errTrace e ∧
      e.code = .VALIDATION_ERROR) ∧
    (VXClient.store cfgTest (fun _ _ _ => .http 200 "" none)
      ⟨"x", none, none, some (.num 2)⟩).attempts = 0 ∧
    (VXClient.update cfgTest (fun _ _ _ => .http 200 "" none)
      ⟨"id1", none, none, none, some (.num (-1))⟩).attempts = 0 :=
  claim6_importance_range cfgTest (fun _ _ _ => .http 200 "" none)
    (fun _ _ _ => .http 200 "" none) ⟨"x", none, none, some (.num 2)⟩
    ⟨"id1", none, none, none, some (.num (-1))⟩ 2 (-1) rfl (by norm_num) rfl (by norm_num)

-- ===========================================================================
-- C7 — list defaults
-- ===========================================================================

/-- C7 counterexample: a `list` with no fields set issues
`GET /v1/memories` with no query parameters at all; in particular no
`limit=20` and no `offset=0` is applied by the client. -/
theorem claim7_counterexample :
    listParams emptyListInput = [] ∧
    listEndpoint emptyListInput = "/v1/memories" ∧
    VXClient.list cfgTest (fun _ _ => .http 200 "" none) emptyListInput =
      request cfgTest ((fun _ _ => .http 200 "" none) "/v1/memories") :=
  ⟨rfl, rfl, rfl⟩

/-- C7 (amended): when `limit` (resp. `offset`) is absent — or present
but falsy, i.e. 0 or NaN — the client omits that parameter from the query
string entirely and applies no default; with no fields at all the request
endpoint is exactly `/v1/memories`.  Defaulting is left to the server. -/
theorem claim7_list_omits_defaults (input : ListMemoriesInput)
    (hl : ∀ l, input.limit = some l → jsFalsy l = true)
    (ho : ∀ o, input.offset = some o → jsFalsy o = true) :
    (∀ v, ("limit", v) ∉ listParams input) ∧
    (∀ v, ("offset", v) ∉ listParams input) ∧
    (input.context = none → input.memoryType = none →
      listEndpoint input = "/v1/memories") := by
  obtain ⟨lim, off, ctx, mt⟩ := input
  have hlim : (match lim with
      | some l => if jsFalsy l then [] else [("limit", jsNumToString l)]
      | none => ([] : List (String × String))) = [] := by
    rcases lim with _ | l
    · rfl
    · simp [hl l rfl]
  have hoff : (match off with
      | some o => if jsFalsy o then [] else [("offset", jsNumToString o)]
      | none => ([] : List (String × String))) = [] := by
    rcases off with _ | o
    · rfl
    · simp [ho o rfl]
  refine ⟨?_, ?_, ?_⟩
  · intro v hv
    rw [listParams] at hv
    simp only [hlim, hoff, List.nil_append, List.mem_append] at hv
    rcases hv with hv | hv
    · rcases ctx with _ | c
      · simp at hv
      · by_cases hce : c = "" <;> simp [hce] at hv
    · rcases mt with _ | m
      · simp at hv
      · simp at hv
  · intro v hv
    rw [listParams] at hv
    simp only [hlim, hoff, List.nil_append, List.mem_append] at hv
    rcases hv with hv | hv
    · rcases ctx with _ | c
      · simp at hv
      · by_cases hce : c = "" <;> simp [hce] at hv
    · rcases mt with _ | m
      · simp at hv
      · simp at hv
  · intro hctx hmt
    cases hctx
    cases hmt
    rw [listEndpoint, listParams]
    simp only [hlim, hoff, List.nil_append]
    rfl

/-- C7 witness: the amended theorem applied to the empty input. -/
theorem claim7_witness :
    ("limit", "20") ∉ listParams emptyListInput ∧
    ("offset", "0") ∉ listParams emptyListInput ∧
    listEndpoint emptyListInput = "/v1/memories" := by
  have h := claim7_list_omits_defaults emptyListInput
    (fun l hx => by cases hx) (fun o hx => by cases hx)
  exact ⟨h.1 "20", h.2.1 "0", h.2.2 rfl rfl⟩

-- ===========================================================================
-- C8 — trailing-slash normalization
-- ===========================================================================

/-- C8 counterexample: `"https://a.com//"` is a syntactically valid
absolute HTTPS URL ending in a trailing slash, but the stored base URL
strips only ONE slash and still ends in a slash. -/
theorem claim8_counterexample :
    isValidUrl "https://a.com//" = true ∧
    ("https://a.com//" : String).data.getLast? = some '/' ∧
    stripTrailingSlash "https://a.com//" = "https://a.com/" ∧
    ("https://a.com/" : String).data.getLast? = some '/' := by
  refine ⟨by decide, by decide, ?_, by decide⟩
  decide

/-- C8 (amended): for a valid HTTP(S) base URL ending in a single
trailing slash (its second-to-last character is not also a slash),
construction stores the URL with the final slash removed, the stored URL
does not end in a slash, and every derived request URL equals the one the
slash-free form would produce; in general exactly one trailing slash is
removed. -/
theorem claim8_trailing_slash (u : String) (hv : isValidUrl u = true)
    (h1 : u.data.getLast? = some '/')
    (h2 : u.data.dropLast.getLast? ≠ some '/') (k d : String) (hk : k ≠ "") :
    stripTrailingSlash u = ⟨u.data.dropLast⟩ ∧
    (stripTrailingSlash u).data.getLast? ≠ some '/' ∧
    (∀ ep, requestUrl (stripTrailingSlash u) ep = String.mk u.data.dropLast ++ ep) ∧
    validateConfig d ⟨some u, some k, none, none, none, none, none⟩ =
      .ok ⟨⟨u.data.dropLast⟩, k, 3, 1000, 30000, d, "mcp-server"⟩ := by
  have hstrip : stripTrailingSlash u = ⟨u.data.dropLast⟩ := by
    rw [stripTrailingSlash, if_pos h1]
  have hu : u ≠ "" := by
    intro hh
    rw [hh] at h1
    exact absurd h1 (by decide)
  refine ⟨hstrip, ?_, ?_, ?_⟩
  · rw [hstrip]
    exact h2
  · intro ep
    rw [hstrip, requestUrl]
  · simp [validateConfig, hu, hk, hv, hstrip]

/-- C8 witness: the amended theorem at `"https://a.com/"`. -/
theorem claim8_witness :
    stripTrailingSlash "https://a.com/" = ⟨("https://a.com/" : String).data.dropLast⟩ ∧
    (stripTrailingSlash "https://a.com/").data.getLast? ≠ some '/' ∧
    (∀ ep, requestUrl (stripTrailingSlash "https://a.com/") ep =
      String.mk ("https://a.com/" : String).data.dropLast ++ ep) ∧
    validateConfig "mcp" ⟨some "https://a.com/", some "key", none, none, none, none, none⟩ =
      .ok ⟨⟨("https://a.com/" : String).data.dropLast⟩, "key", 3, 1000, 30000, "mcp",
        "mcp-server"⟩ :=
  claim8_trailing_slash "https://a.com/" (by decide) (by decide) (by decide)
    "key" "mcp" (by decide)

-- ===========================================================================
-- Retry-loop lemmas
-- ===========================================================================

/-- One-step unfolding of the loop on a failing attempt. -/
theorem requestAux_step_fail {T : Type} (cfg : VXClientConfig)
    (t : Nat → AttemptOutcome T) (fuel attempt : Nat) (le : Option VXError)
    (e : VXError) (hc : classifyOutcome cfg (t attempt) = .fail e) :
    requestAux cfg t (fuel + 1) attempt le =
      if e.retryable = false ∨ attempt = cfg.maxRetries then ⟨.error e, 1, []⟩
      else ⟨(requestAux cfg t fuel (attempt + 1) (some e)).result,
            (requestAux cfg t fuel (attempt + 1) (some e)).attempts + 1,
            cfg.retryDelay * 2 ^ attempt ::
              (requestAux cfg t fuel (attempt + 1) (some e)).delays⟩ := by
  simp only [requestAux, hc]

/-- One-step unfolding of the loop on a successful attempt. -/
theorem requestAux_step_succeed {T : Type} (cfg : VXClientConfig)
    (t : Nat → AttemptOutcome T) (fuel attempt : Nat) (le : Option VXError)
    (s : ReqSuccess T) (hc : classifyOutcome cfg (t attempt) = .succeed s) :
    requestAux cfg t (fuel + 1) attempt le = ⟨.ok s, 1, []⟩ := by
  simp only [requestAux, hc]

/-- If every attempt fails with a retryable error, the loop spends all of
its fuel, sleeps the exponential schedule, and raises the final attempt's
error. -/
theorem requestAux_allFail {T : Type} (cfg : VXClientConfig)
    (t : Nat → AttemptOutcome T) (E : Nat → VXError)
    (hE : ∀ i, classifyOutcome cfg (t i) = .fail (E i))
    (hR : ∀ i, (E i).retryable = true) :
    ∀ n attempt le, attempt + n = cfg.maxRetries →
      requestAux cfg t (n + 1) attempt le =
        ⟨.error (E cfg.maxRetries), n + 1, geomDelays cfg attempt n⟩ := by
  intro n
  induction n with
  | zero =>
    intro attempt le h
    have ha : attempt = cfg.maxRetries := by omega
    subst ha
    rw [requestAux_step_fail cfg t 0 cfg.maxRetries le (E cfg.maxRetries)
      (hE cfg.maxRetries)]
    rw [if_pos (Or.inr rfl)]
    rfl
  | succ n ih =>
    intro attempt le h
    have hne : attempt ≠ cfg.maxRetries := by omega
    rw [requestAux_step_fail cfg t (n + 1) attempt le (E attempt) (hE attempt)]
    rw [if_neg ?hcond]
    case hcond =>
      rintro (hf | hm)
      · rw [hR attempt] at hf
        cases hf
      · exact hne hm
    rw [ih (attempt + 1) (some (E attempt)) (by omega)]
    rfl

/-- If the first `n` attempts fail with retryable errors and attempt `n`
succeeds, the loop returns the success after exactly `n + 1` transport
invocations and the exponential schedule of `n` waits. -/
theorem requestAux_failThenSucceed {T : Type} (cfg : VXClientConfig)
    (t : Nat → AttemptOutcome T) (E : Nat → VXError) (s : ReqSuccess T) :
    ∀ n attempt le fuel, n < fuel → attempt + fuel = cfg.maxRetries + 1 →
      (∀ i, i < n → classifyOutcome cfg (t (attempt + i)) = .fail (E (attempt + i))) →
      (∀ i, i < n → (E (attempt + i)).retryable = true) →
      classifyOutcome cfg (t (attempt + n)) = .succeed s →
      requestAux cfg t fuel attempt le = ⟨.ok s, n + 1, geomDelays cfg attempt n⟩ := by
  intro n
  induction n with
  | zero =>
    intro attempt le fuel hf h hfail hr hs
    obtain ⟨f, rfl⟩ : ∃ f, fuel = f + 1 := ⟨fuel - 1, by omega⟩
    rw [Nat.add_zero] at hs
    rw [requestAux_step_succeed cfg t f attempt le s hs]
    rfl
  | succ n ih =>
    intro attempt le fuel hf h hfail hr hs
    obtain ⟨f, rfl⟩ : ∃ f, fuel = f + 1 := ⟨fuel - 1, by omega⟩
    have h0 : classifyOutcome cfg (t attempt) = .fail (E attempt) := by
      have hh := hfail 0 (by omega)
      rw [Nat.add_zero] at hh
      exact hh
    have hr0 : (E attempt).retryable = true := by
      have hh := hr 0 (by omega)
      rw [Nat.add_zero] at hh
      exact hh
    have hne : attempt ≠ cfg.maxRetries := by omega
    rw [requestAux_step_fail cfg t f attempt le (E attempt) h0]
    rw [if_neg ?hcond]
    case hcond =>
      rintro (hb | hm)
      · rw [hr0] at hb
        cases hb
      · exact hne hm
    rw [ih (attempt + 1) (some (E attempt)) f (by omega) (by omega)
      (fun i hi => by
        have hh := hfail (i + 1) (by omega)
        have e : attempt + (i + 1) = attempt + 1 + i := by omega
        rw [e] at hh
        exact hh)
      (fun i hi => by
        have hh := hr (i + 1) (by omega)
        have e : attempt + (i + 1) = attempt + 1 + i := by omega
        rw [e] at hh
        exact hh)
      (by
        have e : attempt + (n + 1) = attempt + 1 + n := by omega
        rw [e] at hs
        exact hs)]
    rfl

-- ===========================================================================
-- C4 — 429 on every attempt exhausts maxRetries + 1 attempts
-- ===========================================================================

/-- C4 (confirmed): if the transport answers HTTP 429 on every attempt,
the operation invokes the transport exactly `maxRetries + 1` times and
raises the classified RATE_LIMITED error (with the exponential delays in
between).  `maxRetries ≥ 0` holds for every `VXClientConfig` because the
field is a natural number. -/
theorem claim4_rate_limited_exhaustion {T : Type} (cfg : VXClientConfig)
    (t : Nat → AttemptOutcome T) (text : Nat → String) (parsed : Nat → Option T)
    (h : ∀ i, t i = .http 429 (text i) (parsed i)) :
    request cfg t =
      ⟨.error (classifyHttpError 429 (text cfg.maxRetries)), cfg.maxRetries + 1,
       (List.range cfg.maxRetries).map fun i => cfg.retryDelay * 2 ^ i⟩ ∧
    (classifyHttpError 429 (text cfg.maxRetries)).code = .RATE_LIMITED ∧
    (request cfg t).attempts = cfg.maxRetries + 1 := by
  have hE : ∀ i, classifyOutcome cfg (t i) = .fail (classifyHttpError 429 (text i)) := by
    intro i
    rw [h i]
    simp [classifyOutcome]
  have hR : ∀ i, (classifyHttpError 429 (text i)).retryable = true := fun i => rfl
  have main := requestAux_allFail cfg t (fun i => classifyHttpError 429 (text i)) hE hR
    cfg.maxRetries 0 none (by omega)
  have hreq : request cfg t =
      ⟨.error (classifyHttpError 429 (text cfg.maxRetries)), cfg.maxRetries + 1,
       (List.range cfg.maxRetries).map fun i => cfg.retryDelay * 2 ^ i⟩ := by
    rw [request, main, geomDelays_eq_map]
    simp
  exact ⟨hreq, rfl, by rw [hreq]⟩

/-- C4 witness: two retries permitted, HTTP 429 throughout — three
attempts, delays 3 ms and 6 ms, RATE_LIMITED raised. -/
theorem claim4_witness :
    request cfgTwoRetries always429 =
      ⟨.error (classifyHttpError 429 "slow down"), cfgTwoRetries.maxRetries + 1,
       (List.range cfgTwoRetries.maxRetries).map
         fun i => cfgTwoRetries.retryDelay * 2 ^ i⟩ ∧
    (classifyHttpError 429 "slow down").code = .RATE_LIMITED ∧
    (request cfgTwoRetries always429).attempts = cfgTwoRetries.maxRetries + 1 :=
  claim4_rate_limited_exhaustion cfgTwoRetries always429
    (fun _ => "slow down") (fun _ => none) (fun _ => rfl)

-- ===========================================================================
-- C3 — N−1 server errors then success: attempts and backoff schedule
-- ===========================================================================

/-- C3 (confirmed): with HTTP 500 on the first `N − 1` attempts and
HTTP 200 with a parseable body on attempt `N` (`1 ≤ N ≤ maxRetries + 1`),
the operation returns the parsed result, the transport is invoked exactly
`N` times, and the wait after the retryable failure on attempt `i`
(0-indexed) is exactly `retryDelay * 2 ^ i`. -/
theorem claim3_backoff_success {T : Type} (cfg : VXClientConfig)
    (t : Nat → AttemptOutcome T) (N : Nat) (hN1 : 1 ≤ N) (hN2 : N ≤ cfg.maxRetries + 1)
    (etext : Nat → String) (eparsed : Nat → Option T) (tx : String) (v : T)
    (hfail : ∀ i, i < N - 1 → t i = .http 500 (etext i) (eparsed i))
    (hok : t (N - 1) = .http 200 tx (some v)) (htx : tx ≠ "") :
    request cfg t =
      ⟨.ok (.parsed v), N, (List.range (N - 1)).map fun i => cfg.retryDelay * 2 ^ i⟩ := by
  have main := requestAux_failThenSucceed cfg t
    (fun i => classifyHttpError 500 (etext i)) (.parsed v) (N - 1) 0 none
    (cfg.maxRetries + 1) (by omega) (by omega)
    (fun i hi => by
      rw [Nat.zero_add, hfail i hi]
      simp [classifyOutcome])
    (fun i hi => rfl)
    (by
      rw [Nat.zero_add, hok]
      simp [classifyOutcome, htx])
  rw [request, main, geomDelays_eq_map]
  congr 1
  · omega
  · simp

/-- C3 witness: `maxRetries = 3`, `baseDelay = 1000`, two 500s then a
200: three attempts, delays 1000 and 2000. -/
theorem claim3_witness :
    request cfgTest failTwiceTransport = ⟨.ok (.parsed memFixture), 3, [1000, 2000]⟩ := by
  rw [claim3_backoff_success cfgTest failTwiceTransport 3 (by decide) (by decide)
    (fun _ => "err") (fun _ => none) "ok-body" memFixture
    (fun i hi => if_pos hi) rfl (by decide)]
  rfl

-- ===========================================================================
-- C1 — JSON parse failure on a success response
-- ===========================================================================

/-- C1 counterexample: a 200 response whose non-empty body fails to parse
is classified NETWORK_ERROR (not distinct from network failures),
retryable (not fatal), and IS retried: with one retry permitted the
transport is invoked twice and one back-off wait of 7 ms is slept. -/
theorem claim1_counterexample :
    request cfgRetryOnce parseFailTransport = ⟨.error jsonParseFailureError, 2, [7]⟩ ∧
    jsonParseFailureError.code = .NETWORK_ERROR ∧
    jsonParseFailureError.retryable = true :=
  ⟨rfl, rfl, rfl⟩

/-- C1 (amended): when every attempt yields a success status with a
non-empty body that fails to parse as JSON, the thrown `SyntaxError` is
caught by the generic handler and classified NETWORK_ERROR with
`retryable = true`; the pipeline retries with the exponential schedule
and raises that NETWORK_ERROR only after exhausting all `maxRetries + 1`
attempts. -/
theorem claim1_parse_failure_retried {T : Type} (cfg : VXClientConfig)
    (t : Nat → AttemptOutcome T) (st : Nat → Nat) (body : Nat → String)
    (hst : ∀ i, 200 ≤ st i ∧ st i ≤ 299) (hbody : ∀ i, body i ≠ "")
    (ht : ∀ i, t i = .http (st i) (body i) none) :
    request cfg t =
      ⟨.error jsonParseFailureError, cfg.maxRetries + 1,
       (List.range cfg.maxRetries).map fun i => cfg.retryDelay * 2 ^ i⟩ ∧
    jsonParseFailureError.code = .NETWORK_ERROR ∧
    jsonParseFailureError.retryable = true := by
  have hE : ∀ i, classifyOutcome cfg (t i) = .fail jsonParseFailureError := by
    intro i
    rw [ht i]
    simp [classifyOutcome, hst i, hbody i]
  have main := requestAux_allFail cfg t (fun _ => jsonParseFailureError) hE
    (fun _ => rfl) cfg.maxRetries 0 none (by omega)
  refine ⟨?_, rfl, rfl⟩
  rw [request, main, geomDelays_eq_map]
  simp

/-- C1 witness: the amended theorem with two retries permitted and body
`"x"` on every attempt. -/
theorem claim1_witness :
    request cfgTwoRetries (fun _ => AttemptOutcome.http 200 "x" (none : Option Memory)) =
      ⟨.error jsonParseFailureError, cfgTwoRetries.maxRetries + 1,
       (List.range cfgTwoRetries.maxRetries).map
         fun i => cfgTwoRetries.retryDelay * 2 ^ i⟩ ∧
    jsonParseFailureError.code = .NETWORK_ERROR ∧
    jsonParseFailureError.retryable = true :=
  claim1_parse_failure_retried cfgTwoRetries
    (fun _ => AttemptOutcome.http 200 "x" none) (fun _ => 200) (fun _ => "x")
    (fun _ => by show 200 ≤ 200 ∧ 200 ≤ 299; decide)
    (fun _ => by show "x" ≠ ""; decide) (fun _ => rfl)

end VxMcp
